import Mathlib

/-!
Shallow embedding of the mirror-minder mirror-health engine
(src/src/mirror-minder.py, src/repos.py, src/src/issues.py).

Instants and durations are modelled as `Int` seconds (Python `datetime` /
`timedelta` arithmetic is exact at second granularity for every value this
program manipulates).  Python `Optional` fields become `Option`; the trinary
health verdict `Optional[bool]` becomes `Option Bool` (`some true` = healthy,
`some false` = unhealthy, `none` = indeterminate).  Python `assert` failures
and uncaught exceptions are modelled as `none` / `Option`-valued results.
The f-string explanation templates of `judge_mirror` are modelled as an
inductive type whose constructors carry exactly the dynamic values
interpolated into the corresponding template.
-/

namespace MirrorMinder

/-- Source `CHECK_INTERVAL = timedelta(minutes=30)` from src/repos.py, in seconds. -/
def CHECK_INTERVAL : Int := 30 * 60

/-- Source `FRESHNESS_TARGET = timedelta(hours=6)` from src/src/mirror-minder.py. -/
def FRESHNESS_TARGET : Int := 6 * 3600

/-- Source `STALENESS_LIMIT = timedelta(days=3)` from src/src/mirror-minder.py. -/
def STALENESS_LIMIT : Int := 3 * 86400

/-- Source `AUTHORITY_UPDATE_GRACE_PERIOD = timedelta(hours=12)`. -/
def AUTHORITY_UPDATE_GRACE_PERIOD : Int := 12 * 3600

/-- Source `CONSECUTIVE_FAIL_LIMIT = round(timedelta(days=3) / CHECK_INTERVAL)`.
The ratio is exactly 144.0, so Python's `round` returns 144. -/
def CONSECUTIVE_FAIL_LIMIT : Nat := (3 * 86400) / (30 * 60)

/-- The `Mirror` dataclass of src/repos.py.  Timestamps are epoch seconds. -/
structure Mirror where
  repo_url : String
  repo_name : String
  weight : Int
  next_check : Int
  consecutive_check_failures : Nat
  last_check : Option Int
  last_successful_check : Option Int
  last_sync_time : Option Int
deriving DecidableEq, Repr

/-- List-of-chars version of Python `str.startswith`. -/
def startsWithChars : List Char → List Char → Bool
  | [], _ => true
  | _ :: _, [] => false
  | p :: ps, c :: cs => p == c && startsWithChars ps cs

/-- Source `Mirror.is_authoritative`:
`self.repo_url.startswith("https://packages.termux.dev")`. -/
def Mirror.is_authoritative (m : Mirror) : Bool :=
  startsWithChars ("https://packages.termux.dev".data) m.repo_url.data

/-- Source `Mirror.release_url`: repo name `"main"` maps to path `"stable"`. -/
def Mirror.release_url (m : Mirror) : String :=
  let repo_path := if m.repo_name = "main" then ("stable") else m.repo_name
  m.repo_url ++ "/dists/" ++ repo_path ++ "/Release"

/-- Source `Mirror.update_from` (src/repos.py): copy the four mutable
mirror-checking state fields from `other`, deliberately ignoring
`other.next_check`. -/
def update_from (self other : Mirror) : Mirror :=
  { self with
    consecutive_check_failures := other.consecutive_check_failures
    last_check := other.last_check
    last_successful_check := other.last_successful_check
    last_sync_time := other.last_sync_time }

/-- The `MirrorGroup` dataclass (`domain`, `mirrors` from src/repos.py;
`mirror_file_path` as consumed by src/src/mirror-minder.py and described in
the spec's external-interface section). -/
structure MirrorGroup where
  domain : String
  mirror_file_path : String
  mirrors : List Mirror
deriving DecidableEq, Repr

/-- The Mirror constructed by `__load_mirrors_from_file` for a freshly
loaded topology entry: zero failures and no history. -/
def mkFreshMirror (repo_url repo_name : String) (weight : Int)
    (next_check : Int) : Mirror :=
  { repo_url := repo_url
    repo_name := repo_name
    weight := weight
    next_check := next_check
    consecutive_check_failures := 0
    last_check := none
    last_successful_check := none
    last_sync_time := none }

/-- One constructor per f-string explanation template returned by
`judge_mirror` (src/src/mirror-minder.py), carrying the dynamic values
interpolated into that template. -/
inductive Explanation
  /-- Template "⭕ retrieving it failed {n} times in a row, last successful
  retrieval was {last_successful_check}" -/
  | failedTooManyTimes (failures : Nat) (last_successful_check : Option Int)
  /-- Template "🟨 retrieving it failed {n} times in a row (about {alert_eta} until
  it exceeds the unavailability limit) ..." -/
  | stillFailing (failures : Nat) (alert_eta : Int)
      (last_successful_check : Option Int)
  /-- Template "⁉️ mirror has never been checked ..." -/
  | neverChecked
  /-- Template "⁉️ authority freshness unknown ..." -/
  | authorityUnknown
  /-- Template "🟨 (in grace period) hasn't synced since {last_sync} ..." -/
  | stalenessGrace (last_sync staleness authority_age : Int)
      (authority_url : String)
  /-- Template "⭕ hasn't synced since {last_sync} ..." -/
  | stalenessExceeded (last_sync staleness authority_age : Int)
      (authority_url : String)
  /-- Template "🟨 (below alert threshold) hasn't synced since {last_sync} ..." -/
  | belowTarget (last_sync staleness authority_age : Int)
      (authority_url : String)
  /-- Template "🟢 looks good, last synced {last_sync} ..." -/
  | looksGood (last_sync staleness authority_age : Int)
      (authority_url : String)
deriving DecidableEq, Repr

/-- Source `judge_mirror` from src/src/mirror-minder.py.  `now` is
`datetime.now(UTC)` at judgment time.  The result is `none` exactly when
the `assert not mirror.is_authoritative()` would fire; otherwise it is
`some (verdict, explanation)` with `verdict : Option Bool` as in the
source's `tuple[Optional[bool], str]`. -/
def judge_mirror (mirror : Mirror) (authority : Option Mirror) (now : Int) :
    Option (Option Bool × Explanation) :=
  if mirror.is_authoritative then none
  else if mirror.consecutive_check_failures ≥ CONSECUTIVE_FAIL_LIMIT then
    some (some false,
      .failedTooManyTimes mirror.consecutive_check_failures
        mirror.last_successful_check)
  else if mirror.consecutive_check_failures ≠ 0 then
    let alert_eta : Int :=
      ((CONSECUTIVE_FAIL_LIMIT : Int) - mirror.consecutive_check_failures) *
        CHECK_INTERVAL
    some (none,
      .stillFailing mirror.consecutive_check_failures alert_eta
        mirror.last_successful_check)
  else
    match mirror.last_sync_time with
    | none => some (none, .neverChecked)
    | some mirror_sync =>
      match authority with
      | none => some (none, .authorityUnknown)
      | some auth =>
        match auth.last_sync_time with
        | none => some (none, .authorityUnknown)
        | some auth_sync =>
          let staleness := auth_sync - mirror_sync
          let authority_age := now - auth_sync
          if staleness > STALENESS_LIMIT then
            if authority_age < AUTHORITY_UPDATE_GRACE_PERIOD then
              some (none,
                .stalenessGrace mirror_sync staleness authority_age
                  auth.repo_url)
            else
              some (some false,
                .stalenessExceeded mirror_sync staleness authority_age
                  auth.repo_url)
          else if staleness > FRESHNESS_TARGET then
            some (some true,
              .belowTarget mirror_sync staleness authority_age auth.repo_url)
          else
            some (some true,
              .looksGood mirror_sync staleness authority_age auth.repo_url)

/-- Source `issue_title` from src/src/issues.py. -/
def issue_title (package_repo_domain : String) : String :=
  "mirrors: " ++ package_repo_domain ++ " is unhealthy"

/-- The issue body built by `issue_body` in src/src/issues.py, modelled
structurally: the rendered markdown is a function of the domain, the mirror
file path and the per-mirror detail sections built by `judge_mirror_group`
(plus fixed text and the wall-clock footer, which carry no decision
content). -/
structure IssueBody where
  domain : String
  mirror_file_path : String
  details : List (Mirror × Explanation)
deriving DecidableEq, Repr

/-- The two exception types caught at the github boundary:
`except (ValueError, sh.ErrorReturnCode)`. -/
inductive GhError
  | valueError
  | errorReturnCode
deriving DecidableEq, Repr

/-- Oracle for the four `gh`-backed operations of src/src/issues.py: what
each call would return, or which exception it would raise, if invoked. -/
structure Notifier where
  search_result : Except GhError (Option String)
  update_result : Except GhError Unit
  create_result : Except GhError String
  close_result : Except GhError Unit

/-- One observable tracker interaction (a `gh` invocation attempted by
src/src/issues.py on behalf of mirror-minder). -/
inductive Effect
  | search (title : String)
  | update (url : String) (body : IssueBody)
  | create (title : String) (body : IssueBody)
  | close (url : String)
deriving DecidableEq, Repr

deriving instance DecidableEq for Except

/-- The `try:` body of `update_github_issue` (src/src/mirror-minder.py):
the tracker calls attempted, in order, and the exception (if any) escaping
the `try` block. -/
def update_github_issue_attempt (n : Notifier) (log_only : Bool)
    (repo_domain mirror_file_path : String)
    (details : List (Mirror × Explanation)) (create : Bool) :
    List Effect × Option GhError :=
  let title := issue_title repo_domain
  let body : IssueBody := ⟨repo_domain, mirror_file_path, details⟩
  if log_only then ([], none)
  else
    match n.search_result with
    | .error e => ([.search title], some e)
    | .ok (some url) =>
      match n.update_result with
      | .error e => ([.search title, .update url body], some e)
      | .ok _ => ([.search title, .update url body], none)
    | .ok none =>
      if create then
        match n.create_result with
        | .error e => ([.search title, .create title body], some e)
        | .ok _ => ([.search title, .create title body], none)
      else ([.search title], none)

/-- Which exceptions the `except (ValueError, sh.ErrorReturnCode)` clause
catches. -/
def caughtByGithubHandler : GhError → Bool
  | .valueError => true
  | .errorReturnCode => true

/-- Source `update_github_issue` from src/src/mirror-minder.py: the `try:` body
with the `except (ValueError, sh.ErrorReturnCode)` handler, which logs and
swallows.  `.error` would be an exception escaping to the caller. -/
def update_github_issue (n : Notifier) (log_only : Bool)
    (repo_domain mirror_file_path : String)
    (details : List (Mirror × Explanation)) (create : Bool) :
    Except GhError (List Effect) :=
  match update_github_issue_attempt n log_only repo_domain mirror_file_path
      details create with
  | (effs, none) => .ok effs
  | (effs, some e) => if caughtByGithubHandler e then .ok effs else .error e

/-- The `try:` body of `close_github_issue` (src/src/mirror-minder.py). -/
def close_github_issue_attempt (n : Notifier) (log_only : Bool)
    (repo_domain mirror_file_path : String)
    (details : List (Mirror × Explanation)) :
    List Effect × Option GhError :=
  let title := issue_title repo_domain
  let body : IssueBody := ⟨repo_domain, mirror_file_path, details⟩
  if log_only then ([], none)
  else
    match n.search_result with
    | .error e => ([.search title], some e)
    | .ok none => ([.search title], none)
    | .ok (some url) =>
      match n.update_result with
      | .error e => ([.search title, .update url body], some e)
      | .ok _ =>
        match n.close_result with
        | .error e =>
          ([.search title, .update url body, .close url], some e)
        | .ok _ => ([.search title, .update url body, .close url], none)

/-- Source `close_github_issue` from src/src/mirror-minder.py: `try:` body plus
the swallowing handler. -/
def close_github_issue (n : Notifier) (log_only : Bool)
    (repo_domain mirror_file_path : String)
    (details : List (Mirror × Explanation)) :
    Except GhError (List Effect) :=
  match close_github_issue_attempt n log_only repo_domain mirror_file_path
      details with
  | (effs, none) => .ok effs
  | (effs, some e) => if caughtByGithubHandler e then .ok effs else .error e

/-- Source `is_recent` from `judge_mirror_group` (src/src/mirror-minder.py). -/
def is_recent (now : Int) : Option Int → Bool
  | none => false
  | some last_check => now - last_check < 2 * CHECK_INTERVAL

/-- The explanation-collecting loop of `judge_mirror_group`: judge every
non-authoritative mirror against the authority for its repo name, skipping
authoritative mirrors.  `none` models the `assert` in `judge_mirror`
firing (which the skip makes unreachable here). -/
def judgeList (now : Int) (authorities : String → Option Mirror) :
    List Mirror → Option (List (Mirror × Option Bool × Explanation))
  | [] => some []
  | m :: ms =>
    if m.is_authoritative then judgeList now authorities ms
    else
      match judge_mirror m (authorities m.repo_name) now with
      | none => none
      | some (verdict, explanation) =>
        match judgeList now authorities ms with
        | none => none
        | some rest => some ((m, verdict, explanation) :: rest)

/-- Source `any_red` aggregation: `any(mirror_healthy is False for ...)`. -/
def anyRed (explanations : List (Mirror × Option Bool × Explanation)) :
    Bool :=
  explanations.any (fun e => e.2.1 == some false)

/-- Source `all_green` aggregation: `all(mirror_healthy is True for ...)`. -/
def allGreen (explanations : List (Mirror × Option Bool × Explanation)) :
    Bool :=
  explanations.all (fun e => e.2.1 == some true)

/-- Source `detail_parts`: one section per judged mirror, in judgment order
(`[p(m, e) for (m, _, e) in explanations]`). -/
def detailsOf (explanations : List (Mirror × Option Bool × Explanation)) :
    List (Mirror × Explanation) :=
  explanations.map (fun e => (e.1, e.2.2))

/-- Source `judge_mirror_group` from src/src/mirror-minder.py.  Returns the list
of per-mirror judgments made plus the tracker effects (the latter as the
`Except` result of the github helper actually invoked); `none` models an
uncaught assertion failure.  `AUTO_CLOSE` and `LOG_ONLY` — module-level
configuration in the source — are passed explicitly. -/
def judge_mirror_group (g : MirrorGroup)
    (authorities : String → Option Mirror) (now : Int) (n : Notifier)
    (log_only auto_close : Bool) :
    Option (List (Mirror × Option Bool × Explanation) ×
      Except GhError (List Effect)) :=
  if g.mirrors.all (fun m => is_recent now m.last_check) then
    match judgeList now authorities g.mirrors with
    | none => none
    | some explanations =>
      if explanations = [] then some ([], Except.ok [])
      else
        let details := detailsOf explanations
        if allGreen explanations && auto_close then
          some (explanations,
            close_github_issue n log_only g.domain g.mirror_file_path
              details)
        else
          some (explanations,
            update_github_issue n log_only g.domain g.mirror_file_path
              details (anyRed explanations))
  else some ([], Except.ok [])

/-- All mirrors of a list of groups, in order
(`chain.from_iterable([g.mirrors for g in groups])`). -/
def allMirrors (gs : List MirrorGroup) : List Mirror :=
  (gs.map MirrorGroup.mirrors).flatten

/-- Lookup in the dict built by `mirror_map`
(`{m.repo_url: m for m in ...}`): for duplicate URLs the last mirror
wins, as in a Python dict comprehension. -/
def dictGet (ms : List Mirror) (u : String) : Option Mirror :=
  (ms.filter (fun m => m.repo_url == u)).getLast?

/-- The per-mirror effect of the merge loop in `load_mirrors`
(src/repos.py): if the cache dict has this URL, load the cached state via
`update_from`; otherwise leave the fresh mirror untouched. -/
def mergeOne (cache : List Mirror) (m : Mirror) : Mirror :=
  match dictGet cache m.repo_url with
  | some c => update_from m c
  | none => m

/-- The merge loop over one group's mirrors.  The Python loop mutates the
values of the `repo_map` dict, i.e. for each URL only the last mirror
carrying it; a mirror with a later duplicate of its URL (in the rest of
its own group, `laterGroups` being the mirrors of all later groups) is
therefore left untouched. -/
def mergeMirrors (cache : List Mirror) :
    List Mirror → List Mirror → List Mirror
  | [], _ => []
  | m :: rest, laterGroups =>
    (if (rest ++ laterGroups).any (fun x => x.repo_url == m.repo_url) then m
     else mergeOne cache m) :: mergeMirrors cache rest laterGroups

/-- The merge applied group by group: `load_mirrors` returns `from_repo`,
whose mirror objects were updated in place. -/
def mergeGroups (cache : List Mirror) :
    List MirrorGroup → List MirrorGroup
  | [] => []
  | g :: rest =>
    { g with mirrors := mergeMirrors cache g.mirrors (allMirrors rest) } ::
      mergeGroups cache rest

/-- The cache-merging tail of `load_mirrors` (src/repos.py): if the cache
is absent (or falsy, i.e. an empty group list), return the fresh topology
as is; otherwise merge cached state into it by URL and return the fresh
topology. -/
def load_mirrors_merge (from_repo : List MirrorGroup)
    (from_cache : Option (List MirrorGroup)) : List MirrorGroup :=
  match from_cache with
  | none => from_repo
  | some cache_groups =>
    if cache_groups = [] then from_repo
    else mergeGroups (allMirrors cache_groups) from_repo

/-- The `fail` transition of `check_and_update_mirror`
(src/src/mirror-minder.py).  `next` is the jittered `next_check_time()`
result, passed explicitly since it is randomized. -/
def failTransition (m : Mirror) (now next : Int) : Mirror :=
  { m with
    last_check := some now
    consecutive_check_failures := m.consecutive_check_failures + 1
    next_check := next }

/-- The `succeed` transition of `check_and_update_mirror`. -/
def succeedTransition (m : Mirror) (sync_time now next : Int) : Mirror :=
  { m with
    last_check := some now
    last_successful_check := some now
    last_sync_time := some sync_time
    consecutive_check_failures := 0
    next_check := next }

/-- Python `str.splitlines` restricted to the line terminators `\n`,
`\r\n` and `\r` (no trailing empty line for a trailing terminator). -/
def splitlinesAux : List Char → List Char → List (List Char)
  | [], acc => if acc.isEmpty then [] else [acc.reverse]
  | '\r' :: '\n' :: rest, acc => acc.reverse :: splitlinesAux rest []
  | '\n' :: rest, acc => acc.reverse :: splitlinesAux rest []
  | '\r' :: rest, acc => acc.reverse :: splitlinesAux rest []
  | c :: rest, acc => splitlinesAux rest (c :: acc)

/-- Source `release_req.text.splitlines()`. -/
def splitlines (s : String) : List (List Char) :=
  splitlinesAux s.data []

/-- Python `str.strip(chars)`: remove from both ends every character that
is a member of the given set. -/
def stripChars (strip cs : List Char) : List Char :=
  ((cs.dropWhile (strip.contains ·)).reverse.dropWhile
    (strip.contains ·)).reverse

/-- Python `str.split(", ")`: split on every non-overlapping occurrence of
the two-character separator, left to right. -/
def splitCommaSpace : List Char → List Char → List (List Char)
  | [], acc => [acc.reverse]
  | ',' :: ' ' :: rest, acc => acc.reverse :: splitCommaSpace rest []
  | c :: rest, acc => splitCommaSpace rest (c :: acc)

/-- Python `str.replace(" UTC", "+0000")`: replace every non-overlapping
occurrence, left to right. -/
def replaceUTC : List Char → List Char
  | ' ' :: 'U' :: 'T' :: 'C' :: rest =>
    '+' :: '0' :: '0' :: '0' :: '0' :: replaceUTC rest
  | c :: rest => c :: replaceUTC rest
  | [] => []

/-- Python `str.endswith(" UTC")`. -/
def endsWithSpaceUTC (cs : List Char) : Bool :=
  cs.reverse.take 4 == ['C', 'T', 'U', ' ']

/-- Gregorian leap year. -/
def isLeap (y : Nat) : Bool :=
  y % 4 == 0 && (y % 100 != 0 || y % 400 == 0)

/-- Days in the months before month `m` of a common year. -/
def cumDays (m : Nat) : Nat :=
  [0, 31, 59, 90, 120, 151, 181, 212, 243, 273, 304, 334].getD (m - 1) 0

/-- Length of month `m` of year `y`, as validated by Python's `datetime`
constructor. -/
def daysInMonth (y m : Nat) : Nat :=
  if m = 2 then (if isLeap y then 29 else 28)
  else if m = 4 ∨ m = 6 ∨ m = 9 ∨ m = 11 then 30
  else 31

/-- Epoch seconds of the civil UTC instant `y-m-d hh:mi:s` (proleptic
Gregorian; 719162 is the day count from 0001-01-01 to 1970-01-01). -/
def toEpochSeconds (y m d hh mi s : Nat) : Int :=
  let leaps : Nat := (y - 1) / 4 - (y - 1) / 100 + (y - 1) / 400
  let extra : Nat := if m > 2 ∧ isLeap y then 1 else 0
  let days : Int :=
    (365 * (y - 1) + leaps + cumDays m + extra + (d - 1) : Nat) - 719162
  days * 86400 + hh * 3600 + mi * 60 + s

/-- Digit value of a character, if it is one. -/
def digitVal (c : Char) : Option Nat :=
  if '0' ≤ c ∧ c ≤ '9' then some (c.toNat - 48) else none

/-- Source `strptime` whitespace class. -/
def isPySpace (c : Char) : Bool :=
  c == ' ' || c == '\t' || c == '\n' || c == '\r' ||
    c == '\x0b' || c == '\x0c'

/-- A literal space in a `strptime` format: one or more whitespace
characters. -/
def skipWs1 : List Char → Option (List Char)
  | c :: rest =>
    if isPySpace c then some (rest.dropWhile isPySpace) else none
  | [] => none

/-- Source `%d`: the regex `3[01]|[12]\d|0[1-9]|[1-9]` (two-digit alternatives
first, then a bare nonzero digit). -/
def parseDay : List Char → Option (Nat × List Char)
  | c1 :: c2 :: rest =>
    match digitVal c1, digitVal c2 with
    | some d1, some d2 =>
      if (d1 = 3 ∧ d2 ≤ 1) ∨ d1 = 1 ∨ d1 = 2 ∨ (d1 = 0 ∧ 1 ≤ d2) then
        some (10 * d1 + d2, rest)
      else if 1 ≤ d1 then some (d1, c2 :: rest)
      else none
    | some d1, none => if 1 ≤ d1 then some (d1, c2 :: rest) else none
    | none, _ => none
  | [c1] =>
    match digitVal c1 with
    | some d1 => if 1 ≤ d1 then some (d1, []) else none
    | none => none
  | [] => none

/-- ASCII lower-casing, for `strptime`'s case-insensitive `%b` match. -/
def lowerChar (c : Char) : Char :=
  if 'A' ≤ c ∧ c ≤ 'Z' then Char.ofNat (c.toNat + 32) else c

/-- Month number of a lower-cased three-letter abbreviation (C locale). -/
def monthAbbrevNum : List Char → Option Nat
  | ['j', 'a', 'n'] => some 1
  | ['f', 'e', 'b'] => some 2
  | ['m', 'a', 'r'] => some 3
  | ['a', 'p', 'r'] => some 4
  | ['m', 'a', 'y'] => some 5
  | ['j', 'u', 'n'] => some 6
  | ['j', 'u', 'l'] => some 7
  | ['a', 'u', 'g'] => some 8
  | ['s', 'e', 'p'] => some 9
  | ['o', 'c', 't'] => some 10
  | ['n', 'o', 'v'] => some 11
  | ['d', 'e', 'c'] => some 12
  | _ => none

/-- Source `%b`: a case-insensitive abbreviated month name. -/
def parseMonth : List Char → Option (Nat × List Char)
  | c1 :: c2 :: c3 :: rest =>
    match monthAbbrevNum [lowerChar c1, lowerChar c2, lowerChar c3] with
    | some m => some (m, rest)
    | none => none
  | _ => none

/-- Source `%Y`: exactly four digits. -/
def parseYear : List Char → Option (Nat × List Char)
  | c1 :: c2 :: c3 :: c4 :: rest =>
    match digitVal c1, digitVal c2, digitVal c3, digitVal c4 with
    | some d1, some d2, some d3, some d4 =>
      some (1000 * d1 + 100 * d2 + 10 * d3 + d4, rest)
    | _, _, _, _ => none
  | _ => none

/-- Source `%H`: the regex `2[0-3]|[0-1]\d|\d`. -/
def parseHour : List Char → Option (Nat × List Char)
  | c1 :: c2 :: rest =>
    match digitVal c1, digitVal c2 with
    | some d1, some d2 =>
      if (d1 = 2 ∧ d2 ≤ 3) ∨ d1 ≤ 1 then some (10 * d1 + d2, rest)
      else some (d1, c2 :: rest)
    | some d1, none => some (d1, c2 :: rest)
    | none, _ => none
  | [c1] =>
    match digitVal c1 with
    | some d1 => some (d1, [])
    | none => none
  | [] => none

/-- Source `%M`: the regex `[0-5]\d|\d`. -/
def parseMinute : List Char → Option (Nat × List Char)
  | c1 :: c2 :: rest =>
    match digitVal c1, digitVal c2 with
    | some d1, some d2 =>
      if d1 ≤ 5 then some (10 * d1 + d2, rest)
      else some (d1, c2 :: rest)
    | some d1, none => some (d1, c2 :: rest)
    | none, _ => none
  | [c1] =>
    match digitVal c1 with
    | some d1 => some (d1, [])
    | none => none
  | [] => none

/-- Source `%S`: the regex `6[0-1]|[0-5]\d|\d` (leap seconds match the regex but
are rejected later by the `datetime` constructor). -/
def parseSecond : List Char → Option (Nat × List Char)
  | c1 :: c2 :: rest =>
    match digitVal c1, digitVal c2 with
    | some d1, some d2 =>
      if d1 = 6 ∧ d2 ≤ 1 then some (60 + d2, rest)
      else if d1 ≤ 5 then some (10 * d1 + d2, rest)
      else some (d1, c2 :: rest)
    | some d1, none => some (d1, c2 :: rest)
    | none, _ => none
  | [c1] =>
    match digitVal c1 with
    | some d1 => some (d1, [])
    | none => none
  | [] => none

/-- A literal `:` in the format. -/
def expectColon : List Char → Option (List Char)
  | ':' :: rest => some rest
  | _ => none

/-- Source `%z` at the end of the format: `[+-]HHMM` or `[+-]HH:MM` (or a bare
`Z`), consuming the whole remaining input; the resulting offset must be
strictly within ±24 hours (Python's `timezone` bound). -/
def parseOffsetTail : List Char → Option Int
  | ['Z'] => some 0
  | sign :: rest =>
    let signVal : Option Int :=
      if sign = '+' then some 1 else if sign = '-' then some (-1) else none
    match signVal with
    | none => none
    | some sv =>
      let digits4 : List Char → Option (Nat × Nat)
        | [h1, h2, m1, m2] =>
          match digitVal h1, digitVal h2, digitVal m1, digitVal m2 with
          | some a, some b, some c, some d =>
            some (10 * a + b, 10 * c + d)
          | _, _, _, _ => none
        | [h1, h2, ':', m1, m2] =>
          match digitVal h1, digitVal h2, digitVal m1, digitVal m2 with
          | some a, some b, some c, some d =>
            some (10 * a + b, 10 * c + d)
          | _, _, _, _ => none
        | _ => none
      match digits4 rest with
      | some (hh, mm) =>
        let off : Int := sv * (hh * 3600 + mm * 60)
        if off < 86400 ∧ -86400 < off then some off else none
      | none => none
  | [] => none

/-- Source `datetime.strptime(s, "%d %b %Y %H:%M:%S%z")` followed by reading the
resulting aware datetime as epoch seconds; `none` is a `ValueError`
(either a regex mismatch or an out-of-range field rejected by the
`datetime` constructor). -/
def strptimeSyncTime (cs : List Char) : Option Int := do
  let (d, r1) ← parseDay cs
  let r2 ← skipWs1 r1
  let (mo, r3) ← parseMonth r2
  let r4 ← skipWs1 r3
  let (y, r5) ← parseYear r4
  let r6 ← skipWs1 r5
  let (hh, r7) ← parseHour r6
  let r8 ← expectColon r7
  let (mi, r9) ← parseMinute r8
  let r10 ← expectColon r9
  let (s, r11) ← parseSecond r10
  let off ← parseOffsetTail r11
  if 1 ≤ y ∧ 1 ≤ d ∧ d ≤ daysInMonth y mo ∧ s ≤ 59 then
    some (toEpochSeconds y mo d hh mi s - off)
  else none

/-- Result of attempting one `Date:` line inside the parse loop of
`check_and_update_mirror`. -/
inductive LineResult
  /-- a sync time was parsed: `return succeed(...)` -/
  | parsed (t : Int)
  /-- the payload does not end in `" UTC"`: logged, `continue` -/
  | skip
  /-- Source `ValueError` from `strptime`/`datetime`: `return fail(mirror)` -/
  | valueError
  /-- Source `IndexError` from `split(", ")[1]`: uncaught, propagates -/
  | indexError
deriving DecidableEq, Repr

/-- The body of the `if line.startswith("Date:")` block
(src/src/mirror-minder.py lines 162–184):
`line.strip("Date: ").split(", ")[1]`, the `" UTC"` suffix check and
replacement, and `strptime`. -/
def parseDateLine (line : List Char) : LineResult :=
  let stripped := stripChars ['D', 'a', 't', 'e', ':', ' '] line
  match (splitCommaSpace stripped []).get? 1 with
  | none => .indexError
  | some sync_time_str =>
    if endsWithSpaceUTC sync_time_str then
      match strptimeSyncTime (replaceUTC sync_time_str) with
      | some t => .parsed t
      | none => .valueError
    else .skip

/-- Overall outcome of the line-scanning loop. -/
inductive ScanResult
  /-- some `Date:` line yielded a sync time -/
  | success (t : Int)
  /-- the check is a failure transition (`return fail(mirror)`) -/
  | failure
  /-- an uncaught exception propagates out of `check_and_update_mirror` -/
  | crash
deriving DecidableEq, Repr

/-- Source `for line in release_req.text.splitlines(): if line.startswith("Date:")
...` — falling off the loop without a parsed sync time is a failure. -/
def scanLines : List (List Char) → ScanResult
  | [] => .failure
  | line :: rest =>
    if startsWithChars ("Date:".data) line then
      match parseDateLine line with
      | .parsed t => .success t
      | .skip => scanLines rest
      | .valueError => .failure
      | .indexError => .crash
    else scanLines rest

/-- The post-HTTP-200 portion of `check_and_update_mirror`: scan the
response body, then take the success or failure transition (`none` models
an uncaught exception). -/
def process_release_body (m : Mirror) (body : String) (now next : Int) :
    Option Mirror :=
  match scanLines (splitlines body) with
  | .success t => some (succeedTransition m t now next)
  | .failure => some (failTransition m now next)
  | .crash => none

/-! ### Concrete fixtures used by witness theorems -/

/-- The authoritative mirror of the `main` repo, last synced at 900000. -/
def authorityMainW : Mirror :=
  { repo_url := "https://packages.termux.dev/apt/termux-main"
    repo_name := "main"
    weight := 100
    next_check := 0
    consecutive_check_failures := 0
    last_check := some 1000000
    last_successful_check := some 1000000
    last_sync_time := some 900000 }

/-- A non-authoritative mirror past the consecutive-failure limit. -/
def mirrorFailingHardW : Mirror :=
  { repo_url := "https://w.example/apt/termux-main"
    repo_name := "main"
    weight := 100
    next_check := 0
    consecutive_check_failures := 144
    last_check := some 1000000
    last_successful_check := none
    last_sync_time := none }

/-- A non-authoritative mirror with five consecutive failures. -/
def mirrorFailingSoftW : Mirror :=
  { mirrorFailingHardW with consecutive_check_failures := 5 }

/-- A non-authoritative mirror whose sync time is 259201 s behind the
authority (just past the staleness limit). -/
def mirrorStaleW : Mirror :=
  { mirrorFailingHardW with
    consecutive_check_failures := 0
    last_successful_check := some 1000000
    last_sync_time := some 640799 }

/-- A healthy non-authoritative mirror, 5000 s behind the authority. -/
def mirrorFreshW : Mirror :=
  { mirrorStaleW with last_sync_time := some 895000 }

/-- A non-authoritative mirror, 21601 s behind the authority (just past
the freshness target, within the staleness limit). -/
def mirrorSlightlyStaleW : Mirror :=
  { mirrorStaleW with last_sync_time := some 878399 }

/-- A mirror that has never been checked (`last_check = None`). -/
def mirrorNeverCheckedW : Mirror :=
  { mirrorStaleW with
    repo_url := "https://w.example/apt/termux-x11"
    repo_name := "x11"
    last_check := none }

/-- Authority map for the fixtures: only `main` has an authority. -/
def authoritiesW : String → Option Mirror :=
  fun repo_name =>
    if repo_name = "main" then some authorityMainW else none

/-- The issue URL returned by the fixture notifier's search. -/
def issueUrlW : String := "https://github.test/issue/1"

/-- The issue URL returned by the fixture notifier's create. -/
def createdUrlW : String := "https://github.test/issue/2"

/-- A notifier oracle whose operations all succeed and whose search finds
an open issue. -/
def notifierFoundW : Notifier :=
  { search_result := Except.ok (some issueUrlW)
    update_result := Except.ok ()
    create_result := Except.ok createdUrlW
    close_result := Except.ok () }

/-- A group containing one healthy judged mirror, all checked recently. -/
def groupHealthyW : MirrorGroup :=
  { domain := "w.example"
    mirror_file_path := "mirrors/default/w.example"
    mirrors := [mirrorFreshW] }

/-- A group in which one mirror has never been checked. -/
def groupPartlyCheckedW : MirrorGroup :=
  { domain := "w.example"
    mirror_file_path := "mirrors/default/w.example"
    mirrors := [mirrorFreshW, mirrorNeverCheckedW] }

/-- A group consisting only of the authoritative mirror. -/
def groupAllAuthoritativeW : MirrorGroup :=
  { domain := "packages.termux.dev"
    mirror_file_path := "mirrors/default/packages.termux.dev"
    mirrors := [authorityMainW] }

/-- Fresh topology for the cache-merge witness: one known URL, one new. -/
def freshMainW : Mirror :=
  mkFreshMirror ("https://w.example/apt/termux-main") ("main") 100 30

/-- A fresh mirror whose URL is new in the topology. -/
def freshX11W : Mirror :=
  mkFreshMirror ("https://w.example/apt/termux-x11") ("x11") 100 31

/-- The judgment of `groupHealthyW`'s one non-authoritative mirror. -/
def explFreshW : Explanation :=
  .looksGood 895000 5000 100500 authorityMainW.repo_url

/-- The judgment list produced for `groupHealthyW`. -/
def judgedHealthyW : List (Mirror × Option Bool × Explanation) :=
  [(mirrorFreshW, some true, explFreshW)]

/-- Cached state for the URL shared with `freshMainW`. -/
def cachedMainW : Mirror :=
  { repo_url := "https://w.example/apt/termux-main"
    repo_name := "main"
    weight := 100
    next_check := 424242
    consecutive_check_failures := 2
    last_check := some 111
    last_successful_check := some 222
    last_sync_time := some 333 }

/-- A cached mirror whose URL left the topology. -/
def cachedRootW : Mirror :=
  { cachedMainW with
    repo_url := "https://w.example/apt/termux-root"
    repo_name := "root" }

/-- Fresh topology groups for the merge witness. -/
def freshGroupsW : List MirrorGroup :=
  [{ domain := "w.example"
     mirror_file_path := "mirrors/default/w.example"
     mirrors := [freshMainW, freshX11W] }]

/-- Cached topology groups for the merge witness. -/
def cacheGroupsW : List MirrorGroup :=
  [{ domain := "w.example"
     mirror_file_path := "mirrors/default/w.example"
     mirrors := [cachedMainW, cachedRootW] }]

/-- Release body whose first `Date:` line is not in UTC but whose second
one is. -/
def bodyTwoDatesW : String :=
  "Date: Tue, 3 Jun 2025 06:18:01 GMT\nDate: Tue, 3 Jun 2025 06:18:01 UTC"

/-- The well-formed sync-time line of the spec's example. -/
def goodDateLineW : String :=
  "Date: Tue, 3 Jun 2025 06:18:01 UTC"

/-- A release body containing the good `Date:` line amid other fields. -/
def bodyGoodW : String :=
  "Origin: Termux\nDate: Tue, 3 Jun 2025 06:18:01 UTC\nSuite: stable"

/-- A release body whose only `Date:` line ends in a named non-UTC zone. -/
def bodyNonUTCW : String :=
  "Date: Tue, 3 Jun 2025 06:18:01 CEST"

/-! ## Helper lemmas -/

/-- Source `judge_mirror` never hits its assertion on a non-authoritative
mirror. -/
theorem judge_mirror_isSome (m : Mirror) (a : Option Mirror) (now : Int)
    (h : m.is_authoritative = false) :
    ∃ r, judge_mirror m a now = some r := by
  unfold judge_mirror
  rw [h]
  simp only [Bool.false_eq_true, if_false]
  repeat' first
    | exact ⟨_, rfl⟩
    | split

/-- The judgment loop always returns a list: the authoritative skip keeps
`judge_mirror`'s assertion unreachable. -/
theorem judgeList_total (now : Int) (authorities : String → Option Mirror) :
    ∀ ms : List Mirror, ∃ J, judgeList now authorities ms = some J := by
  intro ms
  induction ms with
  | nil => exact ⟨[], rfl⟩
  | cons m rest ih =>
    obtain ⟨J, hJ⟩ := ih
    by_cases hm : m.is_authoritative = true
    · exact ⟨J, by simp [judgeList, hm, hJ]⟩
    · have hm' : m.is_authoritative = false := by
        simpa using hm
      obtain ⟨⟨v, e⟩, hr⟩ := judge_mirror_isSome m (authorities m.repo_name)
        now hm'
      exact ⟨(m, v, e) :: J, by simp [judgeList, hm', hr, hJ]⟩

/-- A group of authoritative mirrors judges to the empty list. -/
theorem judgeList_all_auth (now : Int)
    (authorities : String → Option Mirror) :
    ∀ ms : List Mirror, (∀ m ∈ ms, m.is_authoritative = true) →
      judgeList now authorities ms = some [] := by
  intro ms
  induction ms with
  | nil => intro _; rfl
  | cons m rest ih =>
    intro h
    have hm : m.is_authoritative = true := h m (by simp)
    have hrest := ih (fun x hx => h x (by simp [hx]))
    simp [judgeList, hm, hrest]

/-- Source `update_github_issue` returns normally for every oracle outcome. -/
theorem update_github_issue_ok (n : Notifier) (log_only : Bool)
    (repo_domain mirror_file_path : String)
    (details : List (Mirror × Explanation)) (create : Bool) :
    ∃ effs, update_github_issue n log_only repo_domain mirror_file_path
      details create = .ok effs := by
  unfold update_github_issue
  rcases h : update_github_issue_attempt n log_only repo_domain
      mirror_file_path details create with ⟨effs, err⟩
  cases err with
  | none => exact ⟨effs, rfl⟩
  | some e => cases e <;> exact ⟨effs, rfl⟩

/-- Source `close_github_issue` returns normally for every oracle outcome. -/
theorem close_github_issue_ok (n : Notifier) (log_only : Bool)
    (repo_domain mirror_file_path : String)
    (details : List (Mirror × Explanation)) :
    ∃ effs, close_github_issue n log_only repo_domain mirror_file_path
      details = .ok effs := by
  unfold close_github_issue
  rcases h : close_github_issue_attempt n log_only repo_domain
      mirror_file_path details with ⟨effs, err⟩
  cases err with
  | none => exact ⟨effs, rfl⟩
  | some e => cases e <;> exact ⟨effs, rfl⟩

/-- A red verdict in a judgment list rules out `all_green`. -/
theorem anyRed_not_allGreen
    (J : List (Mirror × Option Bool × Explanation))
    (hr : anyRed J = true) : allGreen J = false := by
  unfold anyRed at hr
  rw [List.any_eq_true] at hr
  obtain ⟨x, hx, hfx⟩ := hr
  cases hg : allGreen J with
  | false => rfl
  | true =>
    exfalso
    unfold allGreen at hg
    rw [List.all_eq_true] at hg
    have := hg x hx
    rw [beq_iff_eq] at hfx this
    rw [hfx] at this
    exact Option.noConfusion this (fun h => Bool.noConfusion h)

/-- The merge leaves every mirror's URL unchanged. -/
theorem mergeOne_repo_url (cache : List Mirror) (m : Mirror) :
    (mergeOne cache m).repo_url = m.repo_url := by
  unfold mergeOne
  cases dictGet cache m.repo_url with
  | none => rfl
  | some c => rfl

/-- With no duplicate URLs, the dict-mutating merge loop acts on every
position independently. -/
theorem mergeMirrors_eq_map (cache : List Mirror) :
    ∀ ms later : List Mirror,
      (((ms ++ later).map Mirror.repo_url).Nodup) →
      mergeMirrors cache ms later = ms.map (mergeOne cache) := by
  intro ms
  induction ms with
  | nil => intro later _; rfl
  | cons m rest ih =>
    intro later h
    rw [List.cons_append, List.map_cons, List.nodup_cons] at h
    obtain ⟨hnotmem, hrest⟩ := h
    have hany :
        ((rest ++ later).any (fun x => x.repo_url == m.repo_url)) = false := by
      cases ha : (rest ++ later).any (fun x => x.repo_url == m.repo_url) with
      | false => rfl
      | true =>
        exfalso
        rw [List.any_eq_true] at ha
        obtain ⟨x, hx, hbe⟩ := ha
        rw [beq_iff_eq] at hbe
        exact hnotmem (hbe ▸ List.mem_map_of_mem Mirror.repo_url hx)
    simp [mergeMirrors, hany, ih later hrest]

/-- Flattened form of the group-by-group merge, under URL uniqueness. -/
theorem mergeGroups_allMirrors (cache : List Mirror) :
    ∀ gs : List MirrorGroup,
      ((allMirrors gs).map Mirror.repo_url).Nodup →
      allMirrors (mergeGroups cache gs) =
        (allMirrors gs).map (mergeOne cache) := by
  intro gs
  induction gs with
  | nil => intro _; rfl
  | cons g rest ih =>
    intro h
    have hall : allMirrors (g :: rest) = g.mirrors ++ allMirrors rest := by
      simp [allMirrors]
    rw [hall, List.map_append] at h
    have h1 : ((allMirrors rest).map Mirror.repo_url).Nodup :=
      h.of_append_right
    have h0 : ((g.mirrors ++ allMirrors rest).map Mirror.repo_url).Nodup := by
      rw [List.map_append]; exact h
    calc allMirrors (mergeGroups cache (g :: rest))
        = mergeMirrors cache g.mirrors (allMirrors rest) ++
            allMirrors (mergeGroups cache rest) := by
          simp [mergeGroups, allMirrors]
      _ = g.mirrors.map (mergeOne cache) ++
            (allMirrors rest).map (mergeOne cache) := by
          rw [mergeMirrors_eq_map cache _ _ h0, ih h1]
      _ = (allMirrors (g :: rest)).map (mergeOne cache) := by
          rw [hall, List.map_append]

/-- The failure limit (144 check intervals) is positive. -/
theorem CONSECUTIVE_FAIL_LIMIT_ne_zero : CONSECUTIVE_FAIL_LIMIT ≠ 0 := by
  decide

/-! ## Claim theorems -/

/-- C1: for every non-authoritative mirror with
`consecutive_check_failures ≥ CONSECUTIVE_FAIL_LIMIT`, `judge_mirror`
returns the Unhealthy verdict, for every authority argument and every
current time — no staleness computation is consulted. -/
theorem judge_mirror_fail_limit_unhealthy (m : Mirror) (a : Option Mirror)
    (now : Int)
    (hauth : m.is_authoritative = false)
    (hfail : CONSECUTIVE_FAIL_LIMIT ≤ m.consecutive_check_failures) :
    (judge_mirror m a now).map Prod.fst = some (some false) := by
  unfold judge_mirror
  rw [hauth]
  simp [hfail]

/-- Witness for C1: a concrete mirror at exactly the failure limit, with
no authority supplied, is judged Unhealthy. -/
theorem judge_mirror_fail_limit_unhealthy_witness :
    mirrorFailingHardW.is_authoritative = false ∧
    CONSECUTIVE_FAIL_LIMIT ≤ mirrorFailingHardW.consecutive_check_failures ∧
    (judge_mirror mirrorFailingHardW none 1000500).map Prod.fst =
      some (some false) :=
  ⟨by decide, by decide,
    judge_mirror_fail_limit_unhealthy mirrorFailingHardW none 1000500
      (by decide) (by decide)⟩

/-- C2: for a non-authoritative, currently-succeeding mirror whose
staleness exceeds `STALENESS_LIMIT`, the verdict is Indeterminate while
the authority's own age is below the grace period, and Unhealthy once the
authority's age reaches it. -/
theorem judge_mirror_staleness_grace_period (m auth_m : Mirror)
    (now mirror_sync auth_sync : Int)
    (hauth : m.is_authoritative = false)
    (hf : m.consecutive_check_failures = 0)
    (hms : m.last_sync_time = some mirror_sync)
    (has : auth_m.last_sync_time = some auth_sync)
    (hstale : auth_sync - mirror_sync > STALENESS_LIMIT) :
    (now - auth_sync < AUTHORITY_UPDATE_GRACE_PERIOD →
      (judge_mirror m (some auth_m) now).map Prod.fst = some none) ∧
    (AUTHORITY_UPDATE_GRACE_PERIOD ≤ now - auth_sync →
      (judge_mirror m (some auth_m) now).map Prod.fst =
        some (some false)) := by
  have hnofail : ¬ CONSECUTIVE_FAIL_LIMIT ≤ m.consecutive_check_failures := by
    rw [hf]; decide
  constructor
  · intro hgrace
    unfold judge_mirror
    rw [hauth]
    simp [hnofail, hf, hms, has, hstale, hgrace,
      CONSECUTIVE_FAIL_LIMIT_ne_zero]
  · intro hold
    have hnograce : ¬ now - auth_sync < AUTHORITY_UPDATE_GRACE_PERIOD := by
      omega
    unfold judge_mirror
    rw [hauth]
    simp [hnofail, hf, hms, has, hstale, hnograce,
      CONSECUTIVE_FAIL_LIMIT_ne_zero]

/-- Witness for C2: a mirror 259201 s behind its authority is judged
Indeterminate 100 s after the authority update and Unhealthy 43200 s
after it. -/
theorem judge_mirror_staleness_grace_period_witness :
    (900000 : Int) - 640799 > STALENESS_LIMIT ∧
    (judge_mirror mirrorStaleW (some authorityMainW) 900100).map Prod.fst =
      some none ∧
    (judge_mirror mirrorStaleW (some authorityMainW) 943200).map Prod.fst =
      some (some false) :=
  ⟨by decide,
    (judge_mirror_staleness_grace_period mirrorStaleW authorityMainW
      900100 640799 900000 (by decide) (by decide) (by decide) (by decide)
      (by decide)).1 (by decide),
    (judge_mirror_staleness_grace_period mirrorStaleW authorityMainW
      943200 640799 900000 (by decide) (by decide) (by decide) (by decide)
      (by decide)).2 (by decide)⟩

/-- C7: for every non-authoritative mirror with
`0 < consecutive_check_failures < CONSECUTIVE_FAIL_LIMIT`, `judge_mirror`
returns Indeterminate, and the explanation carries the alert ETA
`(CONSECUTIVE_FAIL_LIMIT - failures) * CHECK_INTERVAL`. -/
theorem judge_mirror_partial_failures_indeterminate (m : Mirror)
    (a : Option Mirror) (now : Int)
    (hauth : m.is_authoritative = false)
    (hpos : 0 < m.consecutive_check_failures)
    (hlt : m.consecutive_check_failures < CONSECUTIVE_FAIL_LIMIT) :
    judge_mirror m a now = some (none,
      .stillFailing m.consecutive_check_failures
        (((CONSECUTIVE_FAIL_LIMIT : Int) - m.consecutive_check_failures) *
          CHECK_INTERVAL)
        m.last_successful_check) := by
  have hnofail : ¬ CONSECUTIVE_FAIL_LIMIT ≤ m.consecutive_check_failures :=
    Nat.not_le.mpr hlt
  have hne : m.consecutive_check_failures ≠ 0 := Nat.pos_iff_ne_zero.mp hpos
  unfold judge_mirror
  rw [hauth]
  simp [hnofail, hne]

/-- Witness for C7: five consecutive failures yield Indeterminate with a
`(144 - 5) * 1800`-second ETA. -/
theorem judge_mirror_partial_failures_indeterminate_witness :
    0 < mirrorFailingSoftW.consecutive_check_failures ∧
    mirrorFailingSoftW.consecutive_check_failures < CONSECUTIVE_FAIL_LIMIT ∧
    judge_mirror mirrorFailingSoftW (some authorityMainW) 1000500 =
      some (none, .stillFailing 5 (139 * 1800) none) :=
  ⟨by decide, by decide,
    judge_mirror_partial_failures_indeterminate mirrorFailingSoftW
      (some authorityMainW) 1000500 (by decide) (by decide) (by decide)⟩

/-- C8: for a non-authoritative, currently-succeeding mirror, staleness
in `(FRESHNESS_TARGET, STALENESS_LIMIT]` is judged Healthy with the
below-target explanation, and staleness `≤ FRESHNESS_TARGET` is judged
Healthy with the no-caveat explanation. -/
theorem judge_mirror_freshness_tiers (m auth_m : Mirror)
    (now mirror_sync auth_sync : Int)
    (hauth : m.is_authoritative = false)
    (hf : m.consecutive_check_failures = 0)
    (hms : m.last_sync_time = some mirror_sync)
    (has : auth_m.last_sync_time = some auth_sync) :
    (FRESHNESS_TARGET < auth_sync - mirror_sync →
      auth_sync - mirror_sync ≤ STALENESS_LIMIT →
      judge_mirror m (some auth_m) now = some (some true,
        .belowTarget mirror_sync (auth_sync - mirror_sync)
          (now - auth_sync) auth_m.repo_url)) ∧
    (auth_sync - mirror_sync ≤ FRESHNESS_TARGET →
      judge_mirror m (some auth_m) now = some (some true,
        .looksGood mirror_sync (auth_sync - mirror_sync)
          (now - auth_sync) auth_m.repo_url)) := by
  have hnofail : ¬ CONSECUTIVE_FAIL_LIMIT ≤ m.consecutive_check_failures := by
    rw [hf]; decide
  constructor
  · intro htarget hlimit
    have hnostale : ¬ auth_sync - mirror_sync > STALENESS_LIMIT := by omega
    unfold judge_mirror
    rw [hauth]
    simp [hnofail, hf, hms, has, hnostale, htarget,
      CONSECUTIVE_FAIL_LIMIT_ne_zero]
  · intro hfreshv
    have hnostale : ¬ auth_sync - mirror_sync > STALENESS_LIMIT := by
      have : FRESHNESS_TARGET ≤ STALENESS_LIMIT := by decide
      omega
    have hnotarget : ¬ FRESHNESS_TARGET < auth_sync - mirror_sync := by omega
    unfold judge_mirror
    rw [hauth]
    simp [hnofail, hf, hms, has, hnostale, hnotarget,
      CONSECUTIVE_FAIL_LIMIT_ne_zero]

/-- Witness for C8: staleness 21601 s is Healthy below-target; staleness
5000 s is Healthy with no caveat. -/
theorem judge_mirror_freshness_tiers_witness :
    judge_mirror mirrorSlightlyStaleW (some authorityMainW) 1000500 =
      some (some true,
        .belowTarget 878399 21601 100500 authorityMainW.repo_url) ∧
    judge_mirror mirrorFreshW (some authorityMainW) 1000500 =
      some (some true,
        .looksGood 895000 5000 100500 authorityMainW.repo_url) :=
  ⟨(judge_mirror_freshness_tiers mirrorSlightlyStaleW authorityMainW
      1000500 878399 900000 (by decide) (by decide) (by decide)
      (by decide)).1 (by decide) (by decide),
    (judge_mirror_freshness_tiers mirrorFreshW authorityMainW
      1000500 895000 900000 (by decide) (by decide) (by decide)
      (by decide)).2 (by decide)⟩

/-- C3 counterexample: in a body whose FIRST `Date:` line lacks the
`" UTC"` suffix, that line is skipped (`continue`) rather than failing the
check — a later well-formed `Date:` line still produces a success
transition, contradicting the claim that the first such line's rejection
is a failure transition for the check. -/
theorem sync_parser_first_date_line_counterexample :
    process_release_body mirrorFreshW bodyTwoDatesW 1000 2000 =
      some (succeedTransition mirrorFreshW (toEpochSeconds 2025 6 3 6 18 1)
        1000 2000) ∧
    succeedTransition mirrorFreshW (toEpochSeconds 2025 6 3 6 18 1)
        1000 2000 ≠
      failTransition mirrorFreshW 1000 2000 := by
  constructor
  · decide
  · decide

/-- C3 (amended): the parser scans for `Date:` lines; the example line
parses to the UTC instant 2025-06-03T06:18:01Z and yields a success
transition; a `Date:` line whose payload lacks the `" UTC"` suffix is
skipped and scanning continues, so a body whose only `Date:` line is not
in UTC yields a failure transition while a later well-formed `Date:` line
still yields a success transition. -/
theorem sync_parser_amended :
    parseDateLine goodDateLineW.data =
      .parsed (toEpochSeconds 2025 6 3 6 18 1) ∧
    (∀ m : Mirror, ∀ now next : Int,
      process_release_body m bodyGoodW now next =
        some (succeedTransition m (toEpochSeconds 2025 6 3 6 18 1)
          now next)) ∧
    (∀ m : Mirror, ∀ now next : Int,
      process_release_body m bodyNonUTCW now next =
        some (failTransition m now next)) ∧
    (∀ m : Mirror, ∀ now next : Int,
      process_release_body m bodyTwoDatesW now next =
        some (succeedTransition m (toEpochSeconds 2025 6 3 6 18 1)
          now next)) := by
  refine ⟨by decide, ?_, ?_, ?_⟩
  · intro m now next
    have h : scanLines (splitlines bodyGoodW) =
        .success (toEpochSeconds 2025 6 3 6 18 1) := by decide
    unfold process_release_body
    rw [h]
  · intro m now next
    have h : scanLines (splitlines bodyNonUTCW) = .failure := by decide
    unfold process_release_body
    rw [h]
  · intro m now next
    have h : scanLines (splitlines bodyTwoDatesW) =
        .success (toEpochSeconds 2025 6 3 6 18 1) := by decide
    unfold process_release_body
    rw [h]

/-- C4: a group containing a mirror whose `last_check` is absent or more
than `2 * CHECK_INTERVAL` old is not judged at all: no judgment is made
and no tracker interaction of any kind is attempted, whatever the other
mirrors look like. -/
theorem stale_group_never_judged (g : MirrorGroup)
    (authorities : String → Option Mirror) (now : Int) (n : Notifier)
    (log_only auto_close : Bool)
    (h : ∃ m ∈ g.mirrors, m.last_check = none ∨
      ∃ lc, m.last_check = some lc ∧ now - lc > 2 * CHECK_INTERVAL) :
    judge_mirror_group g authorities now n log_only auto_close =
      some ([], Except.ok []) := by
  obtain ⟨m, hm, hcase⟩ := h
  have hnr : is_recent now m.last_check = false := by
    rcases hcase with h0 | ⟨lc, hlc, hgt⟩
    · rw [h0]; rfl
    · rw [hlc]
      unfold is_recent
      simp only [decide_eq_false_iff_not]
      omega
  have hall : (g.mirrors.all (fun m => is_recent now m.last_check)) = false := by
    cases ha : g.mirrors.all (fun m => is_recent now m.last_check) with
    | false => rfl
    | true =>
      exfalso
      rw [List.all_eq_true] at ha
      have := ha m hm
      rw [hnr] at this
      exact Bool.false_ne_true this
  unfold judge_mirror_group
  rw [hall]
  rfl

/-- Witness for C4: a group whose second mirror has never been checked is
skipped although its first mirror is current. -/
theorem stale_group_never_judged_witness :
    (mirrorNeverCheckedW ∈ groupPartlyCheckedW.mirrors ∧
      mirrorNeverCheckedW.last_check = none) ∧
    judge_mirror_group groupPartlyCheckedW authoritiesW 1000500
      notifierFoundW false false = some ([], Except.ok []) :=
  ⟨⟨by decide, by decide⟩,
    stale_group_never_judged groupPartlyCheckedW authoritiesW 1000500
      notifierFoundW false false
      ⟨mirrorNeverCheckedW, by decide, Or.inl (by decide)⟩⟩

/-- C10: a group consisting solely of authoritative mirrors judges nobody
and performs no tracker interaction, regardless of how recently its
mirrors were checked. -/
theorem all_authoritative_group_no_notification (g : MirrorGroup)
    (authorities : String → Option Mirror) (now : Int) (n : Notifier)
    (log_only auto_close : Bool)
    (h : ∀ m ∈ g.mirrors, m.is_authoritative = true) :
    judge_mirror_group g authorities now n log_only auto_close =
      some ([], Except.ok []) := by
  cases hall : g.mirrors.all (fun m => is_recent now m.last_check) with
  | false =>
    unfold judge_mirror_group
    rw [hall]
    rfl
  | true =>
    unfold judge_mirror_group
    rw [hall, judgeList_all_auth now authorities g.mirrors h]
    rfl

/-- Witness for C10: the group holding only the `main` authority, checked
recently, produces no judgment and no tracker effect. -/
theorem all_authoritative_group_no_notification_witness :
    (∀ m ∈ groupAllAuthoritativeW.mirrors, m.is_authoritative = true) ∧
    judge_mirror_group groupAllAuthoritativeW authoritiesW 1000500
      notifierFoundW false false = some ([], Except.ok []) :=
  ⟨by decide,
    all_authoritative_group_no_notification groupAllAuthoritativeW
      authoritiesW 1000500 notifierFoundW false false (by decide)⟩

/-- Flattened form of the whole `load_mirrors` merge, covering the falsy
(empty) cache branch. -/
theorem load_merge_allMirrors (fresh cache : List MirrorGroup)
    (hnd : ((allMirrors fresh).map Mirror.repo_url).Nodup) :
    allMirrors (load_mirrors_merge fresh (some cache)) =
      (allMirrors fresh).map (mergeOne (allMirrors cache)) := by
  have hdef : load_mirrors_merge fresh (some cache) =
      if cache = [] then fresh
      else mergeGroups (allMirrors cache) fresh := rfl
  rw [hdef]
  by_cases hc : cache = []
  · rw [if_pos hc, hc]
    calc allMirrors fresh = (allMirrors fresh).map id :=
          (List.map_id _).symm
      _ = (allMirrors fresh).map
            (mergeOne (allMirrors ([] : List MirrorGroup))) :=
          List.map_congr_left (fun m _ => rfl)
  · rw [if_neg hc]
    exact mergeGroups_allMirrors (allMirrors cache) fresh hnd

/-- C5: with unique URLs in the fresh topology, the merged topology keeps
the cached `consecutive_check_failures`, `last_check`,
`last_successful_check` and `last_sync_time` for every URL present in both
(via `update_from`, which keeps the freshly computed `next_check`); a URL
only in the fresh topology keeps its freshly constructed zero-failure,
no-history mirror; and no URL outside the fresh topology appears in the
merged result. -/
theorem cache_merge_semantics (fresh cache : List MirrorGroup)
    (hnd : ((allMirrors fresh).map Mirror.repo_url).Nodup) :
    (∀ m ∈ allMirrors fresh, ∀ c : Mirror,
      dictGet (allMirrors cache) m.repo_url = some c →
      update_from m c ∈
        allMirrors (load_mirrors_merge fresh (some cache))) ∧
    (∀ m ∈ allMirrors fresh,
      dictGet (allMirrors cache) m.repo_url = none →
      m ∈ allMirrors (load_mirrors_merge fresh (some cache))) ∧
    (∀ m c : Mirror,
      (update_from m c).consecutive_check_failures =
          c.consecutive_check_failures ∧
      (update_from m c).last_check = c.last_check ∧
      (update_from m c).last_successful_check = c.last_successful_check ∧
      (update_from m c).last_sync_time = c.last_sync_time ∧
      (update_from m c).next_check = m.next_check ∧
      (update_from m c).repo_url = m.repo_url) ∧
    (∀ u nm : String, ∀ w t : Int,
      (mkFreshMirror u nm w t).consecutive_check_failures = 0 ∧
      (mkFreshMirror u nm w t).last_check = none ∧
      (mkFreshMirror u nm w t).last_successful_check = none ∧
      (mkFreshMirror u nm w t).last_sync_time = none) ∧
    (∀ u : String,
      u ∈ (allMirrors (load_mirrors_merge fresh (some cache))).map
        Mirror.repo_url →
      u ∈ (allMirrors fresh).map Mirror.repo_url) := by
  have hm := load_merge_allMirrors fresh cache hnd
  refine ⟨?_, ?_, ?_, ?_, ?_⟩
  · intro m hmem c hc
    rw [hm]
    have hone : mergeOne (allMirrors cache) m = update_from m c := by
      unfold mergeOne
      rw [hc]
    exact hone ▸ List.mem_map_of_mem (mergeOne (allMirrors cache)) hmem
  · intro m hmem hc
    rw [hm]
    have hone : mergeOne (allMirrors cache) m = m := by
      unfold mergeOne
      rw [hc]
    exact hone ▸ List.mem_map_of_mem (mergeOne (allMirrors cache)) hmem
  · intro m c
    exact ⟨rfl, rfl, rfl, rfl, rfl, rfl⟩
  · intro u nm w t
    exact ⟨rfl, rfl, rfl, rfl⟩
  · intro u hu
    rw [hm, List.map_map] at hu
    have heq : (allMirrors fresh).map
        (Mirror.repo_url ∘ mergeOne (allMirrors cache)) =
        (allMirrors fresh).map Mirror.repo_url :=
      List.map_congr_left (fun m _ => mergeOne_repo_url (allMirrors cache) m)
    rwa [heq] at hu

/-- Witness for C5: in a concrete topology, the mirror whose URL survives
the reload carries the cached history into the merged result. -/
theorem cache_merge_semantics_witness :
    ((allMirrors freshGroupsW).map Mirror.repo_url).Nodup ∧
    dictGet (allMirrors cacheGroupsW) freshMainW.repo_url =
      some cachedMainW ∧
    update_from freshMainW cachedMainW ∈
      allMirrors (load_mirrors_merge freshGroupsW (some cacheGroupsW)) :=
  have hnd : ((allMirrors freshGroupsW).map Mirror.repo_url).Nodup := by
    decide
  ⟨hnd, by decide,
    (cache_merge_semantics freshGroupsW cacheGroupsW hnd).1 freshMainW
      (by decide) cachedMainW (by decide)⟩

/-- C9: no tracker-communication failure escapes the notifier boundary:
`update_github_issue` and `close_github_issue` return normally for every
oracle outcome (including raising ones), and `judge_mirror_group` always
returns a normal result, so subsequent ticks of the monitoring loop run. -/
theorem notifier_failures_never_propagate :
    (∀ (n : Notifier) (lo : Bool) (d p : String)
        (det : List (Mirror × Explanation)) (c : Bool),
      ∃ effs, update_github_issue n lo d p det c = Except.ok effs) ∧
    (∀ (n : Notifier) (lo : Bool) (d p : String)
        (det : List (Mirror × Explanation)),
      ∃ effs, close_github_issue n lo d p det = Except.ok effs) ∧
    (∀ (g : MirrorGroup) (authorities : String → Option Mirror) (now : Int)
        (n : Notifier) (lo ac : Bool),
      ∃ J effs, judge_mirror_group g authorities now n lo ac =
        some (J, Except.ok effs)) := by
  refine ⟨update_github_issue_ok, close_github_issue_ok, ?_⟩
  intro g authorities now n lo ac
  cases hall : g.mirrors.all (fun m => is_recent now m.last_check) with
  | false =>
    refine ⟨[], [], ?_⟩
    unfold judge_mirror_group
    rw [hall]
    rfl
  | true =>
    obtain ⟨J, hJ⟩ := judgeList_total now authorities g.mirrors
    by_cases hEmpty : J = []
    · refine ⟨[], [], ?_⟩
      unfold judge_mirror_group
      rw [hall, hJ, hEmpty]
      rfl
    · by_cases hga : (allGreen J && ac) = true
      · obtain ⟨effs, he⟩ := close_github_issue_ok n lo g.domain
          g.mirror_file_path (detailsOf J)
        refine ⟨J, effs, ?_⟩
        unfold judge_mirror_group
        rw [hall, hJ]
        simp [hEmpty, hga, he]
      · obtain ⟨effs, he⟩ := update_github_issue_ok n lo g.domain
          g.mirror_file_path (detailsOf J) (anyRed J)
        refine ⟨J, effs, ?_⟩
        have hga' : (allGreen J && ac) = false := by
          simpa using hga
        unfold judge_mirror_group
        rw [hall, hJ]
        simp [hEmpty, hga', he]

/-- C6: after a group judgment (all mirrors recently checked, at least
one mirror judged, tracker writes enabled and the update operation
succeeding): with a red verdict and no open issue, one search and one
create happen; with an open issue found, its body is updated
unconditionally; with no red verdict and no open issue, no create is ever
attempted; and with every verdict green and auto-close enabled, an
existing open issue is updated and then closed. -/
theorem group_notification_policy (g : MirrorGroup)
    (authorities : String → Option Mirror) (now : Int) (n : Notifier)
    (auto_close : Bool) (J : List (Mirror × Option Bool × Explanation))
    (hrec : (g.mirrors.all (fun m => is_recent now m.last_check)) = true)
    (hJ : judgeList now authorities g.mirrors = some J)
    (hne : J ≠ [])
    (hup : n.update_result = Except.ok ()) :
    (anyRed J = true → n.search_result = Except.ok none →
      judge_mirror_group g authorities now n false auto_close =
        some (J, Except.ok [Effect.search (issue_title g.domain),
          Effect.create (issue_title g.domain)
            ⟨g.domain, g.mirror_file_path, detailsOf J⟩])) ∧
    (∀ url : String, n.search_result = Except.ok (some url) →
      ∃ effs, judge_mirror_group g authorities now n false auto_close =
          some (J, Except.ok effs) ∧
        Effect.update url ⟨g.domain, g.mirror_file_path, detailsOf J⟩ ∈
          effs) ∧
    (anyRed J = false → n.search_result = Except.ok none →
      ∃ effs, judge_mirror_group g authorities now n false auto_close =
          some (J, Except.ok effs) ∧
        ∀ (t : String) (b : IssueBody), Effect.create t b ∉ effs) ∧
    (allGreen J = true → auto_close = true →
      ∀ url : String, n.search_result = Except.ok (some url) →
      judge_mirror_group g authorities now n false auto_close =
        some (J, Except.ok [Effect.search (issue_title g.domain),
          Effect.update url ⟨g.domain, g.mirror_file_path, detailsOf J⟩,
          Effect.close url])) := by
  refine ⟨?_, ?_, ?_, ?_⟩
  · intro hred hsearch
    have hg : allGreen J = false := anyRed_not_allGreen J hred
    cases hcr : n.create_result with
    | error e =>
      cases e <;>
        simp [judge_mirror_group, hrec, hJ, hne, hg, update_github_issue,
          update_github_issue_attempt, hsearch, hred, hcr,
          caughtByGithubHandler, issue_title]
    | ok s =>
      simp [judge_mirror_group, hrec, hJ, hne, hg, update_github_issue,
        update_github_issue_attempt, hsearch, hred, hcr, issue_title]
  · intro url hsearch
    by_cases hga : (allGreen J && auto_close) = true
    · refine ⟨[Effect.search (issue_title g.domain),
        Effect.update url ⟨g.domain, g.mirror_file_path, detailsOf J⟩,
        Effect.close url], ?_, by simp⟩
      cases hcl : n.close_result with
      | error e =>
        cases e <;>
          simp [judge_mirror_group, hrec, hJ, hne, hga, close_github_issue,
            close_github_issue_attempt, hsearch, hup, hcl,
            caughtByGithubHandler, issue_title]
      | ok u =>
        simp [judge_mirror_group, hrec, hJ, hne, hga, close_github_issue,
          close_github_issue_attempt, hsearch, hup, hcl, issue_title]
    · have hga' : (allGreen J && auto_close) = false := by
        simpa using hga
      refine ⟨[Effect.search (issue_title g.domain),
        Effect.update url ⟨g.domain, g.mirror_file_path, detailsOf J⟩],
        ?_, by simp⟩
      simp [judge_mirror_group, hrec, hJ, hne, hga', update_github_issue,
        update_github_issue_attempt, hsearch, hup, issue_title]
  · intro hred hsearch
    by_cases hga : (allGreen J && auto_close) = true
    · refine ⟨[Effect.search (issue_title g.domain)], ?_, ?_⟩
      · simp [judge_mirror_group, hrec, hJ, hne, hga, close_github_issue,
          close_github_issue_attempt, hsearch, issue_title]
      · intro t b
        simp
    · have hga' : (allGreen J && auto_close) = false := by
        simpa using hga
      refine ⟨[Effect.search (issue_title g.domain)], ?_, ?_⟩
      · simp [judge_mirror_group, hrec, hJ, hne, hga', update_github_issue,
          update_github_issue_attempt, hsearch, hred, issue_title]
      · intro t b
        simp
  · intro hg hac url hsearch
    have hga : (allGreen J && auto_close) = true := by
      rw [hg, hac]
      rfl
    cases hcl : n.close_result with
    | error e =>
      cases e <;>
        simp [judge_mirror_group, hrec, hJ, hne, hga, close_github_issue,
          close_github_issue_attempt, hsearch, hup, hcl,
          caughtByGithubHandler, issue_title]
    | ok u =>
      simp [judge_mirror_group, hrec, hJ, hne, hga, close_github_issue,
        close_github_issue_attempt, hsearch, hup, hcl, issue_title]

/-- Witness for C6: the all-green fixture group, with auto-close enabled
and an open issue found, gets its issue searched, updated and closed. -/
theorem group_notification_policy_witness :
    judgeList 1000500 authoritiesW groupHealthyW.mirrors =
      some judgedHealthyW ∧
    judge_mirror_group groupHealthyW authoritiesW 1000500 notifierFoundW
      false true = some (judgedHealthyW, Except.ok
        [Effect.search (issue_title groupHealthyW.domain),
          Effect.update issueUrlW ⟨groupHealthyW.domain,
            groupHealthyW.mirror_file_path, detailsOf judgedHealthyW⟩,
          Effect.close issueUrlW]) :=
  have hJ : judgeList 1000500 authoritiesW groupHealthyW.mirrors =
      some judgedHealthyW := by decide
  ⟨hJ, (group_notification_policy groupHealthyW authoritiesW 1000500
      notifierFoundW true judgedHealthyW (by decide) hJ (by decide)
      rfl).2.2.2 (by decide) rfl issueUrlW rfl⟩

end MirrorMinder
